import Mathlib

/-!
Verification development for the Houston's reservation-tracker repository.

The worker module (`worker.py`) scans user "watches" against upstream
reservation inventory, notifies users, and optionally auto-books; the
notifications module (`notifications.py`) owns the dedup policy and the
notification log; the HTTP servers (`server.py` / `server_pg.py`) own user
cancellation.  This file shallowly embeds those parts of the source that the
documented claims depend on, and proves or refutes each claim.

Modelling conventions:
* Machine time is an `Int` counting seconds; a calendar date is an `Int`
  counting days, and the day containing an instant `now` is `now.fdiv 86400`
  (the model of `strftime("%Y-%m-%d")` applied to `datetime.now()`).
* SQL `NULL`-able text columns are `Option String`; Python truthiness of such
  a value (`None` and `""` are falsy) is `truthyS`.
* Network effects (`urllib` calls) are oracles passed in as functions:
  inventory responses, booking success, transport success.
* A psycopg2 connection with `autocommit = False` is a pair of database
  states: the `committed` one and the `current` transaction view.
  `commit` publishes the view; `rollback` discards it.
-/

/-- Watch lifecycle status (the `status` column of `watches`). -/
inductive WStatus where
  | active
  | booked
  | expired
  | cancelled
deriving DecidableEq, Repr

/-- A row of the `watches` table, restricted to the columns the worker and the
cancellation endpoint read or write.  `target_date` is a day number;
`time_start` / `time_end` are stored in their `"HH:MM"` textual form (the
worker formats the column with `strftime("%H:%M")` / `str` before parsing). -/
structure Watch where
  id : Nat
  user_id : Nat
  location_key : String
  party_size : Int
  target_date : Int
  time_start : String
  time_end : String
  auto_book : Bool
  book_first_name : Option String
  book_last_name : Option String
  book_email : Option String
  book_phone : Option String
  status : WStatus
  notified_at : Option Int
  booked_at : Option Int
  last_scanned : Option Int
deriving DecidableEq, Repr

/-- A row of the `users` table (the columns joined into the scan query). -/
structure User where
  id : Nat
  email : String
  name : String
  phone : Option String
deriving DecidableEq, Repr

/-- A row of `notification_log`.  `subject`, `body` and `error_message` are
write-only payload text never read back by any logic and are omitted. -/
structure NotifRec where
  watch_id : Option Nat
  user_id : Option Nat
  channel : String
  recipient : String
  status : String
  created_at : Int
deriving DecidableEq, Repr

/-- The database state visible to the worker. -/
structure Db where
  watches : List Watch
  users : List User
  notifLog : List NotifRec
deriving DecidableEq, Repr

/-- A psycopg2 connection with `autocommit = False`: the durable `committed`
state plus the `current` transaction view that statements mutate. -/
structure Conn where
  committed : Db
  current : Db
deriving DecidableEq, Repr

/-- `conn.commit()`: the transaction view becomes durable. -/
def Conn.commit (c : Conn) : Conn := ⟨c.current, c.current⟩

/-- `conn.rollback()`: the transaction view is reset to the committed state. -/
def Conn.rollback (c : Conn) : Conn := ⟨c.committed, c.committed⟩

/-- Python truthiness of a nullable text column: `None` and `""` are falsy. -/
def truthyS (s : Option String) : Bool :=
  match s with
  | none => false
  | some s => !s.toList.isEmpty

/-! ### Time parsing — `_time_str_to_minutes` (worker.py:85-97)

The source strips the string, tries the regex `(\d+):(\d+)\s*(AM|PM)` with
`re.match` (anchored at the start, case-insensitive, trailing text allowed),
and otherwise splits on `":"` and applies `int()` to the first two pieces.
A string fitting neither form raises (`ValueError`/`IndexError`); the model
returns `none` for the raising outcomes.  `\d` and `\s` are modelled over
ASCII, and `int()` as optional sign plus decimal digits with surrounding
whitespace (the source data never exercises underscore grouping). -/

/-- Value of a block of ASCII decimal digits. -/
def digitsVal (ds : List Char) : Nat :=
  ds.foldl (fun a c => a * 10 + (c.toNat - '0'.toNat)) 0

/-- Python `str.strip` on a character list (ASCII whitespace). -/
def stripChars (cs : List Char) : List Char :=
  ((cs.dropWhile Char.isWhitespace).reverse.dropWhile Char.isWhitespace).reverse

/-- `re.match(r'(\d+):(\d+)\s*(AM|PM)', t, re.IGNORECASE)`: returns
`(hour, minute, isPM)` when the regex matches at the start of the string. -/
def match12h (cs : List Char) : Option (Nat × Nat × Bool) :=
  let hs := cs.takeWhile Char.isDigit
  let r1 := cs.dropWhile Char.isDigit
  if hs.isEmpty then none
  else
    match r1 with
    | ':' :: r2 =>
      let ms := r2.takeWhile Char.isDigit
      let r3 := r2.dropWhile Char.isDigit
      if ms.isEmpty then none
      else
        match r3.dropWhile Char.isWhitespace with
        | a :: p :: _ =>
          if (a = 'A' ∨ a = 'a') ∧ (p = 'M' ∨ p = 'm') then
            some (digitsVal hs, digitsVal ms, false)
          else if (a = 'P' ∨ a = 'p') ∧ (p = 'M' ∨ p = 'm') then
            some (digitsVal hs, digitsVal ms, true)
          else none
        | _ => none
    | _ => none

/-- Python `int()` on a decimal string: surrounding whitespace and an optional
sign are accepted; anything else raises (`none`). -/
def pyIntDigits (cs : List Char) : Option Nat :=
  let ds := cs.takeWhile Char.isDigit
  let r := cs.dropWhile Char.isDigit
  if ds.isEmpty then none
  else if r.all Char.isWhitespace then some (digitsVal ds) else none

/-- Python `int()` including the optional sign. -/
def pyInt (cs : List Char) : Option Int :=
  match cs.dropWhile Char.isWhitespace with
  | '+' :: rest => (pyIntDigits rest).map (fun n => (n : Int))
  | '-' :: rest => (pyIntDigits rest).map (fun n => -(n : Int))
  | rest => (pyIntDigits rest).map (fun n => (n : Int))

/-- Python `t.split(":")` on a character list. -/
def splitCols : List Char → List (List Char)
  | [] => [[]]
  | c :: rest =>
    let r := splitCols rest
    if c = ':' then [] :: r
    else
      match r with
      | h :: t => (c :: h) :: t
      | [] => [[c]]

/-- `_time_str_to_minutes` (worker.py:85-97).  `none` models the raising
outcomes (`ValueError` from `int()`, `IndexError` from a missing colon). -/
def timeStrToMinutes (t : String) : Option Int :=
  let cs := stripChars t.toList
  match match12h cs with
  | some (h, mn, isPM) =>
    let h := if isPM ∧ h ≠ 12 then h + 12 else if !isPM ∧ h = 12 then 0 else h
    some ((h * 60 + mn : Nat) : Int)
  | none =>
    match splitCols cs with
    | p0 :: p1 :: _ =>
      match pyInt p0, pyInt p1 with
      | some a, some b => some (a * 60 + b)
      | _, _ => none
    | _ => none

example : timeStrToMinutes "18:00" = some 1080 := by decide
example : timeStrToMinutes "6:00 PM" = some 1080 := by decide
example : timeStrToMinutes "7:15 PM" = some 1155 := by decide
example : timeStrToMinutes "12:05 am" = some 5 := by decide
example : timeStrToMinutes " 11:30 AM " = some 690 := by decide
example : timeStrToMinutes "soon" = none := by decide
example : timeStrToMinutes "18" = none := by decide
example : timeStrToMinutes "1:2:3" = some 62 := by decide

/-! ### Inventory client — `_fetch_inventory` (worker.py:100-128)

The source loops over three fixed anchor hours (12, 17, 21), issues one HTTP
query per anchor, and appends every available slot of every reservation type
of the parsed response to one accumulating list.  A per-anchor exception
(network error, bad JSON) is swallowed by the `except: pass`, contributing
nothing for that anchor.  The HTTP layer is modelled by an oracle from the
anchor hour to the parsed response, `none` standing for the raising outcomes;
the date and party size are fixed for the whole call and are part of the
oracle. -/

/-- A normalized slot as built by `_fetch_inventory`. -/
structure Slot where
  time : String
  reserved_ts : Option Int
  type_id : Option Int
deriving DecidableEq, Repr

/-- Static per-location configuration (the `LOCATIONS` dict). -/
structure LocInfo where
  merchant_id : Nat
  type_id : Nat
  name : String
deriving DecidableEq, Repr

/-- The `LOCATIONS` registry (worker.py:41-72). -/
def LOCATIONS : List (String × LocInfo) := [
  ("peachtree", ⟨278258, 1681, "Houston's - Peachtree"⟩),
  ("west_paces", ⟨278259, 1682, "Houston's - West Paces"⟩),
  ("houston_s_bergen_county", ⟨278171, 1703, "Houston's - Bergen County"⟩),
  ("houston_s_boca_raton", ⟨278275, 1704, "Houston's - Boca Raton"⟩),
  ("houston_s_saint_charles", ⟨278261, 1701, "Houston's - Saint Charles"⟩),
  ("houston_s_north_miami_beach", ⟨278271, 1692, "Houston's - North Miami Beach"⟩),
  ("houston_s_pasadena", ⟨278270, 1696, "Houston's - Pasadena"⟩),
  ("houston_s_pompano_beach", ⟨278276, 1697, "Houston's - Pompano Beach"⟩),
  ("scottsdale", ⟨278256, 1685, "Houston's - Scottsdale"⟩),
  ("hillstone_phoenix", ⟨278170, 1662, "Hillstone - Phoenix"⟩),
  ("hillstone_bal_harbour", ⟨278242, 1702, "Hillstone - Bal Harbour"⟩),
  ("hillstone_coral_gables", ⟨278173, 1664, "Hillstone - Coral Gables"⟩),
  ("hillstone_winter_park", ⟨278257, 1684, "Hillstone - Winter Park"⟩),
  ("hillstone_denver", ⟨278243, 1691, "Hillstone - Denver"⟩),
  ("hillstone_park_cities", ⟨278264, 1694, "Hillstone - Park Cities"⟩),
  ("hillstone_houston", ⟨278244, 1683, "Hillstone - Houston"⟩),
  ("hillstone_park_avenue", ⟨278278, 1695, "Hillstone - Park Avenue"⟩),
  ("hillstone_embarcadero", ⟨278172, 1663, "Hillstone - San Francisco"⟩),
  ("hillstone_santa_monica", ⟨278267, 1689, "Hillstone - Santa Monica"⟩),
  ("rd_kitchen_newport_beach", ⟨278273, 1707, "R+D Kitchen - Newport Beach"⟩),
  ("rd_kitchen_santa_monica", ⟨278268, 4514, "R+D Kitchen - Santa Monica"⟩),
  ("rd_kitchen_yountville", ⟨278254, 1675, "R+D Kitchen - Yountville"⟩),
  ("honor_bar_dallas", ⟨278262, 4240, "Honor Bar - Dallas"⟩),
  ("palm_beach_grill", ⟨278274, 1693, "Palm Beach Grill"⟩),
  ("bandera_corona_del_mar", ⟨278245, 1705, "Bandera - Corona del Mar"⟩),
  ("south_beverly_grill", ⟨278269, 1700, "South Beverly Grill"⟩),
  ("cherry_creek_grill", ⟨278239, 1690, "Cherry Creek Grill"⟩),
  ("rutherford_grill", ⟨278253, 1676, "Rutherford Grill"⟩),
  ("los_altos_grill", ⟨278255, 1677, "Los Altos Grill"⟩),
  ("east_hampton_grill", ⟨278240, 1706, "East Hampton Grill"⟩)]

/-- One entry of a response's `times` array. -/
structure RawTime where
  is_available : Int
  display_time : String
  reserved_ts : Option Int
deriving DecidableEq, Repr

/-- One entry of a response's `types` array. -/
structure RespType where
  reservation_type_id : Option Int
  times : List RawTime
deriving DecidableEq, Repr

/-- The inner double loop of `_fetch_inventory`: every slot of every type
with `is_available == 1` and a truthy `display_time` is appended. -/
def anchorSlots (tys : List RespType) : List Slot :=
  tys.foldl
    (fun acc ty =>
      acc ++ ty.times.foldl
        (fun a s =>
          if s.is_available = 1 ∧ s.display_time ≠ "" then
            a ++ [⟨s.display_time, s.reserved_ts, ty.reservation_type_id⟩]
          else a)
        [])
    []

/-- What one anchor's query contributes: the swallowed per-anchor exception
(`except: pass`) contributes nothing. -/
def anchorContribution (responses : Nat → Option (List RespType)) (a : Nat) : List Slot :=
  match responses a with
  | none => []
  | some tys => anchorSlots tys

/-- The fixed anchor hours of `_fetch_inventory`'s loop. -/
def ANCHOR_HOURS : List Nat := [12, 17, 21]

/-- `_fetch_inventory` (worker.py:100-128): unknown location keys return `[]`;
otherwise the per-anchor slot lists are accumulated in anchor order. -/
def fetchInventory (locKey : String) (responses : Nat → Option (List RespType)) : List Slot :=
  match LOCATIONS.find? (fun p => p.1 = locKey) with
  | none => []
  | some _ => ANCHOR_HOURS.foldl (fun acc a => acc ++ anchorContribution responses a) []

/-! ### Notifications — `notifications.py` -/

/-- A database-layer error (the exceptions caught in `notifications.py`). -/
abbrev DbErr := String

/-- `TEST_DOMAINS` (notifications.py:29). -/
def TEST_DOMAINS : List String := ["@test.com", "@example.com", "@fake.com"]

/-- `is_test_email` (notifications.py:32-33). -/
def isTestEmail (email : String) : Bool :=
  TEST_DOMAINS.any (fun d => d.toList.isSuffixOf (email.toList.map Char.toLower))

/-- `was_recently_notified` (notifications.py:100-114).  The dedup lookup's
result is an `Except`: `.error` models the query raising, in which case the
function logs and returns `False` (fails open).  On success it reports
whether some `sent` record for the pair lies inside the trailing window
(`created_at > NOW() - minutes * INTERVAL '1 minute'`). -/
def wasRecentlyNotified (queryRes : Except DbErr (List NotifRec))
    (watchId : Nat) (channel : String) (now : Int) (minutes : Int) : Bool :=
  match queryRes with
  | .error _ => false
  | .ok rows =>
    rows.any (fun nr =>
      decide (nr.watch_id = some watchId ∧ nr.channel = channel ∧
              nr.status = "sent" ∧ nr.created_at > now - minutes * 60))

/-- `log_notification` (notifications.py:83-97): inserts one row into
`notification_log` and then calls `conn.commit()` — committing everything
pending on the connection, not just the insert. -/
def logNotification (c : Conn) (watchId userId : Option Nat)
    (channel recipient status : String) (now : Int) : Conn :=
  Conn.commit
    { c with current :=
        { c.current with notifLog :=
            c.current.notifLog ++ [⟨watchId, userId, channel, recipient, status, now⟩] } }

/-- A healthy dedup lookup: reads the connection's current notification log. -/
def healthyRead : Db → Except DbErr (List NotifRec) := fun db => .ok db.notifLog

/-- An active watch joined with its owning user
(`SELECT w.*, u.email, u.name, u.phone FROM watches w JOIN users u ...`). -/
structure RowW where
  w : Watch
  user_email : String
  user_name : String
  user_phone : Option String
deriving DecidableEq, Repr

/-- `notify_slot_found` (notifications.py:117-146) for one match: the email
branch, then the SMS branch; each branch consults the dedup check first and,
when not suppressed, makes one transport call and logs its outcome.  `dbRead`
is how the dedup lookup reads the database (`healthyRead` when the database
is up); `emailOk` / `smsOk` are the transport outcomes.  Returns the updated
connection and the number of transport calls made. -/
def notifySlotFound (dbRead : Db → Except DbErr (List NotifRec))
    (emailOk smsOk : Bool) (now : Int) (c : Conn)
    (r : RowW) (_slot : Slot) (_wasBooked : Bool) : Conn × Nat :=
  let wid := r.w.id
  let uid := r.w.user_id
  let userEmail := r.user_email
  let userPhone : Option String :=
    if truthyS r.w.book_phone then r.w.book_phone else r.user_phone
  let step1 : Conn × Nat :=
    if !userEmail.toList.isEmpty ∧ ¬ isTestEmail userEmail then
      if wasRecentlyNotified (dbRead c.current) wid "email" now 60 then (c, 0)
      else
        (logNotification c (some wid) (some uid) "email" userEmail
          (if emailOk then "sent" else "failed") now, 1)
    else (c, 0)
  let c1 := step1.1
  let step2 : Conn × Nat :=
    if truthyS userPhone then
      if wasRecentlyNotified (dbRead c1.current) wid "sms" now 60 then (c1, 0)
      else
        (logNotification c1 (some wid) (some uid) "sms" (userPhone.getD "")
          (if smsOk then "sent" else "failed") now, 1)
    else (c1, 0)
  (step2.1, step1.2 + step2.2)

/-! ### The scan cycle — `scan_watches` (worker.py:160-304)

The cycle: commit the expiry update, load active watches joined with users,
tier-filter by urgency and `last_scanned`, group by
(location, date, party size), fetch inventory per group, match each watch's
time window against its group's slots, process each match (auto-book gate,
notify, timestamps), update `last_scanned`, and commit.  Any exception
reaches the outer handler, which rolls back and returns an error result.

Database failures are injected at representative points via `FailPoint`: a
raising statement before the first commit (`expiryExec`) and a raising
statement at the final `last_scanned` update (`lastScanned`). -/

/-- `SELECT w.*, u.email, u.name, u.phone FROM watches w JOIN users u ON
w.user_id = u.id WHERE w.status = 'active'` (worker.py:176-179). -/
def loadActive (db : Db) : List RowW :=
  db.watches.filterMap (fun w =>
    if w.status = WStatus.active then
      (db.users.find? (fun u => u.id = w.user_id)).map
        (fun u => ⟨w, u.email, u.name, u.phone⟩)
    else none)

/-- One step of the tiered filter (worker.py:186-214): `true` means the row is
skipped.  `hours_until < 24` is `target_date * 86400 - now < 86400` in
seconds; the `last_scanned` buffer skips a normal-cadence row rescanned less
than `25 * 60` seconds ago. -/
def skipRow (urgency : String) (now : Int) (r : RowW) : Bool :=
  let hoursLt24 : Bool := r.w.target_date * 86400 - now < 86400
  if urgency = "urgent" ∧ hoursLt24 = false then true
  else if urgency = "normal" ∧ hoursLt24 = true then true
  else if urgency = "normal" then
    match r.w.last_scanned with
    | some last => decide (now - last < 25 * 60)
    | none => false
  else false

/-- The tiered filter: the scannable rows in order, and the skipped count. -/
def tierFilter (urgency : String) (now : Int) (rows : List RowW) :
    List RowW × Nat :=
  rows.foldl
    (fun acc r => if skipRow urgency now r then (acc.1, acc.2 + 1)
                  else (acc.1 ++ [r], acc.2))
    ([], 0)

/-- The grouping key `(location_key, date_str, party_size)` (worker.py:225);
the date is kept as its day number, which the formatted string determines. -/
abbrev GKey := String × Int × Int

/-- The key of one joined row. -/
def gkey (r : RowW) : GKey := (r.w.location_key, r.w.target_date, r.w.party_size)

/-- `groups.setdefault(key, []).append(w)` on an insertion-ordered
association list. -/
def addG : List (GKey × List RowW) → GKey → RowW → List (GKey × List RowW)
  | [], k, r => [(k, [r])]
  | (k1, l) :: rest, k, r =>
    if k1 = k then (k1, l ++ [r]) :: rest else (k1, l) :: addG rest k r

/-- The grouping loop (worker.py:221-226). -/
def buildGroups (rows : List RowW) : List (GKey × List RowW) :=
  rows.foldl (fun acc r => addG acc (gkey r) r) []

/-- The keys for which an inventory fetch is submitted: one `pool.submit` of
`_fetch_inventory` per entry of the group dict (worker.py:230-234). -/
def fetchedKeys (rows : List RowW) : List GKey :=
  (buildGroups rows).map Prod.fst

/-- A matched (watch, slot) pair (the dicts appended at worker.py:248). -/
structure MatchRec where
  row : RowW
  slot : Slot
  location_key : String
deriving DecidableEq, Repr

/-- The slot loop for one watch (worker.py:245-248): each slot's time is
parsed — a parse failure raises (`none`) — and the slot is kept iff
`start_min <= slot_min <= end_min`. -/
def matchSlots (sMin eMin : Int) : List Slot → Option (List Slot)
  | [] => some []
  | s :: rest =>
    match timeStrToMinutes s.time with
    | none => none
    | some m =>
      (matchSlots sMin eMin rest).map
        (fun tl => if sMin ≤ m ∧ m ≤ eMin then s :: tl else tl)

/-- Matching one watch against its group's slots (worker.py:238-248): the
watch's own window strings are parsed first (a failure raises), then the
slots are filtered. -/
def watchMatches (r : RowW) (locKey : String) (slots : List Slot) :
    Option (List MatchRec) := do
  let sMin ← timeStrToMinutes r.w.time_start
  let eMin ← timeStrToMinutes r.w.time_end
  let ms ← matchSlots sMin eMin slots
  pure (ms.map (fun s => ⟨r, s, locKey⟩))

/-- All watches of one group against the group's slots. -/
def rowsMatches (k : GKey) (slots : List Slot) :
    List RowW → Option (List MatchRec)
  | [] => some []
  | r :: rs => do
    let m1 ← watchMatches r k.1 slots
    let tl ← rowsMatches k slots rs
    pure (m1 ++ tl)

/-- The fan-in matching loop over all groups; `fetch` is the inventory oracle
(`_fetch_inventory` applied to the group key).  `none` models the first
parse exception aborting the whole loop. -/
def collectMatches (fetch : GKey → List Slot) :
    List (GKey × List RowW) → Option (List MatchRec)
  | [] => some []
  | (k, rows) :: rest => do
    let m1 ← rowsMatches k (fetch k) rows
    let tl ← collectMatches fetch rest
    pure (m1 ++ tl)

/-- The auto-book gate (worker.py:261):
`w["auto_book"] and w.get("book_first_name") and w.get("book_phone")` —
the last name is not consulted. -/
def bookGate (w : Watch) : Bool :=
  w.auto_book && truthyS w.book_first_name && truthyS w.book_phone

/-- `UPDATE watches SET status='booked', booked_at=NOW() WHERE id=%s`. -/
def setBooked (db : Db) (wid : Nat) (now : Int) : Db :=
  { db with watches := db.watches.map (fun w =>
      if w.id = wid then { w with status := WStatus.booked, booked_at := some now }
      else w) }

/-- `UPDATE watches SET notified_at=NOW() WHERE id=%s`. -/
def setNotifiedAt (db : Db) (wid : Nat) (now : Int) : Db :=
  { db with watches := db.watches.map (fun w =>
      if w.id = wid then { w with notified_at := some now } else w) }

/-- `UPDATE watches SET last_scanned=NOW() WHERE id = ANY(%s)`. -/
def setLastScanned (db : Db) (ids : List Nat) (now : Int) : Db :=
  { db with watches := db.watches.map (fun w =>
      if w.id ∈ ids then { w with last_scanned := some now } else w) }

/-- The upstream oracles of one cycle: `bookOk` is `_auto_book`'s outcome for
a (watch id, slot time); `emailOk` / `smsOk` are the transport outcomes per
watch id. -/
structure ScanEnv where
  bookOk : Nat → String → Bool
  emailOk : Nat → Bool
  smsOk : Nat → Bool

/-- The observable outcome of the match-processing loop: the final connection,
the watch ids for which `_auto_book` was invoked, and the `booked` /
`notified` summary lists. -/
structure ProcOut where
  conn : Conn
  attempts : List Nat
  booked : List (Nat × String)
  notified : List (Nat × String)
deriving Repr

/-- The match-processing loop (worker.py:250-273): per match, the auto-book
gate decides whether `_auto_book` is attempted; on success the `booked`
update is issued; `notify_slot_found` always runs; `notified_at` is updated
when the match was not booked. -/
def processMatches (env : ScanEnv) (now : Int) :
    List MatchRec → Conn → ProcOut
  | [], c => ⟨c, [], [], []⟩
  | m :: rest, c =>
    let w := m.row.w
    let attempted := bookGate w
    let bookRes := attempted && env.bookOk w.id m.slot.time
    let c1 := if bookRes then { c with current := setBooked c.current w.id now } else c
    let c2 := (notifySlotFound healthyRead (env.emailOk w.id) (env.smsOk w.id)
                now c1 m.row m.slot bookRes).1
    let c3 := if !bookRes then { c2 with current := setNotifiedAt c2.current w.id now } else c2
    let out := processMatches env now rest c3
    ⟨out.conn,
      (if attempted then [w.id] else []) ++ out.attempts,
      (if bookRes then [(w.id, m.slot.time)] else []) ++ out.booked,
      (w.id, m.slot.time) :: out.notified⟩

/-- `UPDATE watches SET status='expired' WHERE status='active' AND
target_date < today` — the statement shared by the cycle's expiry step
(worker.py:172) and the standalone `expire_watches` job (worker.py:323). -/
def expireUpdate (today : Int) (ws : List Watch) : List Watch :=
  ws.map (fun w =>
    if w.status = WStatus.active ∧ w.target_date < today then
      { w with status := WStatus.expired }
    else w)

/-- The expiry update on a whole database state. -/
def expireDb (today : Int) (db : Db) : Db :=
  { db with watches := expireUpdate today db.watches }

/-- The cycle's first two statements (worker.py:171-173): run the expiry
update and commit it, in its own transaction. -/
def afterExpiry (today : Int) (c : Conn) : Conn :=
  Conn.commit { c with current := expireDb today c.current }

/-- The summary dict a cycle returns; `matchCount` models its `"matches"`
key. -/
structure ScanResult where
  matchCount : Nat
  booked : List (Nat × String)
  notified : List (Nat × String)
  scanned : Nat
  skipped : Nat
  error : Bool
deriving DecidableEq, Repr

/-- The dict returned by the outer exception handler (worker.py:302). -/
def scanErrorResult : ScanResult := ⟨0, [], [], 0, 0, true⟩

/-- Points at which an injected database error raises mid-cycle. -/
inductive FailPoint where
  | expiryExec
  | lastScanned
deriving DecidableEq, Repr

/-- `scan_watches` (worker.py:160-304).  `fetch` is the inventory oracle;
`failAt` injects a database error at the given point; the returned pair is
the summary dict and the connection after the cycle (the outer handler
rolls back on any exception). -/
def scanWatches (env : ScanEnv) (fetch : GKey → List Slot) (urgency : String)
    (now : Int) (failAt : Option FailPoint) (c0 : Conn) : ScanResult × Conn :=
  let today := now.fdiv 86400
  if failAt = some FailPoint.expiryExec then (scanErrorResult, c0.rollback)
  else
    let c1 := afterExpiry today c0
    let rows := loadActive c1.current
    if rows = [] then (⟨0, [], [], 0, 0, false⟩, c1)
    else
      let ts := tierFilter urgency now rows
      if ts.1 = [] then (⟨0, [], [], 0, ts.2, false⟩, c1)
      else
        match collectMatches fetch (buildGroups ts.1) with
        | none => (scanErrorResult, c1.rollback)
        | some ms =>
          let out := processMatches env now ms c1
          if failAt = some FailPoint.lastScanned then (scanErrorResult, out.conn.rollback)
          else
            let c2 := Conn.commit
              { out.conn with current :=
                  setLastScanned out.conn.current (ts.1.map (fun r => r.w.id)) now }
            (⟨ms.length, out.booked, out.notified, ts.1.length, ts.2, false⟩, c2)

/-- The connection state reached just before the final `last_scanned` update,
when the cycle gets that far (`none` on the early returns and on a matching
exception). -/
def afterProcessing (env : ScanEnv) (fetch : GKey → List Slot) (urgency : String)
    (now : Int) (c0 : Conn) : Option Conn :=
  let today := now.fdiv 86400
  let c1 := afterExpiry today c0
  let rows := loadActive c1.current
  if rows = [] then none
  else
    let ts := tierFilter urgency now rows
    if ts.1 = [] then none
    else
      match collectMatches fetch (buildGroups ts.1) with
      | none => none
      | some ms => some (processMatches env now ms c1).conn

/-! ### User cancellation — `delete_watch` (server_pg.py:760-776, server.py:880-901)

Both servers select the watch by `id` and owning `user_id` only; when found,
they issue `UPDATE watches SET status='cancelled' WHERE id=...` with no
condition on the current status. -/

/-- The outcome of the cancellation endpoint after authentication and id
parsing. -/
inductive CancelOutcome where
  | notFound
  | success
deriving DecidableEq, Repr

/-- `delete_watch` for an authenticated user `uid` on watch `wid`. -/
def deleteWatch (db : Db) (uid wid : Nat) : CancelOutcome × Db :=
  match db.watches.find? (fun w => decide (w.id = wid ∧ w.user_id = uid)) with
  | none => (CancelOutcome.notFound, db)
  | some _ =>
    (CancelOutcome.success,
      { db with watches := db.watches.map (fun w =>
          if w.id = wid then { w with status := WStatus.cancelled } else w) })

/-! ### Concrete fixtures

Small database states, oracles and rows used to instantiate the theorems
below on concrete inputs.  `now10` is 10:00 on day 10 (in seconds). -/

/-- A baseline watch: active, day 10, window 18:00-20:00, no auto-book. -/
def watch0 : Watch :=
  { id := 1, user_id := 1, location_key := "peachtree", party_size := 2,
    target_date := 10, time_start := "18:00", time_end := "20:00",
    auto_book := false, book_first_name := none, book_last_name := none,
    book_email := none, book_phone := none, status := WStatus.active,
    notified_at := none, booked_at := none, last_scanned := none }

/-- The owning user (a test-domain address, so the email branch is skipped). -/
def user0 : User := ⟨1, "amy@test.com", "Amy", none⟩

/-- Oracles under which nothing external succeeds. -/
def envQuiet : ScanEnv := ⟨fun _ _ => false, fun _ => false, fun _ => false⟩

/-- An inventory oracle returning no slots. -/
def fetchNone : GKey → List Slot := fun _ => []

/-- 10:00 on day 10, in seconds. -/
def now10 : Int := 10 * 86400 + 36000

/-- An auto-book watch with first name and phone but no last name. -/
def watchNoLast : Watch :=
  { watch0 with auto_book := true, book_first_name := some "Amy",
                book_phone := some "5550001111" }

/-- Database and connection holding only `watchNoLast`. -/
def dbNoLast : Db := ⟨[watchNoLast], [user0], []⟩

/-- Fresh connection on `dbNoLast`. -/
def connNoLast : Conn := ⟨dbNoLast, dbNoLast⟩

/-- Oracles under which every booking attempt succeeds. -/
def envBookAll : ScanEnv := ⟨fun _ _ => true, fun _ => false, fun _ => false⟩

/-- An in-window evening slot (7:15 PM = minute 1155 of [1080, 1200]). -/
def slotEve : Slot := ⟨"7:15 PM", some 1, some 2⟩

/-- An inventory oracle always returning `slotEve`. -/
def fetchEve : GKey → List Slot := fun _ => [slotEve]

/-- An already-expired-in-calendar watch (target day 9, still `active`). -/
def watchPast : Watch := { watch0 with target_date := 9 }

/-- A second watch targeting the current day. -/
def watchToday : Watch := { watch0 with id := 2 }

/-- Database with one stale and one current watch. -/
def dbTwo : Db := ⟨[watchPast, watchToday], [user0], []⟩

/-- Fresh connection on `dbTwo`. -/
def connTwo : Conn := ⟨dbTwo, dbTwo⟩

/-- Database and connection holding only `watchToday`. -/
def dbToday : Db := ⟨[watchToday], [user0], []⟩

/-- Fresh connection on `dbToday`. -/
def connToday : Conn := ⟨dbToday, dbToday⟩

/-- An inventory oracle whose first slot carries malformed time text and whose
second slot is a perfectly good in-window slot. -/
def fetchBadTime : GKey → List Slot := fun _ => [⟨"soon", none, none⟩, slotEve]

/-- The joined row for `watch0` and `user0`. -/
def rowWin : RowW := ⟨watch0, "amy@test.com", "Amy", none⟩

/-- Slots at the window start, the window end, and one minute outside each. -/
def slotsWin : List Slot :=
  [⟨"6:00 PM", none, none⟩, ⟨"8:00 PM", none, none⟩,
   ⟨"5:59 PM", none, none⟩, ⟨"8:01 PM", none, none⟩]

/-- The matches `watchMatches` produces for `rowWin` on `slotsWin`. -/
def msWin : List MatchRec :=
  [⟨rowWin, ⟨"6:00 PM", none, none⟩, "peachtree"⟩,
   ⟨rowWin, ⟨"8:00 PM", none, none⟩, "peachtree"⟩]

/-- A row whose user has a deliverable (non-test) address and no phone. -/
def rowMail : RowW := ⟨watch0, "amy@realmail.com", "Amy", none⟩

/-- A row whose user has a test-domain address (email branch skipped) and a
phone — exercises only the SMS channel. -/
def rowPhone : RowW := ⟨watch0, "amy@test.com", "Amy", some "4045550100"⟩

/-- A row with both a deliverable address and a phone — exercises both
channels. -/
def rowBoth : RowW := ⟨watch0, "amy@realmail.com", "Amy", some "4045550100"⟩

/-- A connection whose notification log is empty. -/
def connEmptyLog : Conn := ⟨dbToday, dbToday⟩

/-- A watch already in the terminal `booked` state. -/
def watchBooked : Watch := { watch0 with status := WStatus.booked, booked_at := some 5 }

/-- Database holding only the booked watch. -/
def dbBooked : Db := ⟨[watchBooked], [user0], []⟩

/-- A dedup lookup whose query raises. -/
def brokenRead : Db → Except DbErr (List NotifRec) := fun _ => .error "connection lost"

/-- Upstream responses where only the noon anchor query returns a slot. -/
def respOne : Nat → Option (List RespType) := fun a =>
  if a = 12 then some [⟨some 7, [⟨1, "6:00 PM", some 100⟩]⟩] else none

/-- Upstream responses where the noon and the 17:00 anchor queries both
return a slot with the same display time. -/
def respDup : Nat → Option (List RespType) := fun a =>
  if a = 12 ∨ a = 17 then some [⟨some 7, [⟨1, "6:00 PM", some 100⟩]⟩] else none

/-! ### Supporting lemmas -/

/-- A pair drawn from a list zipped with its own image under `f` relates the
element to its image. -/
theorem pairMemZipMap {α β : Type} (f : α → β) (l : List α) (a : α) (b : β)
    (h : (a, b) ∈ l.zip (l.map f)) : b = f a := by
  induction l with
  | nil => simp at h
  | cons x xs ih =>
    simp only [List.map_cons, List.zip_cons_cons, List.mem_cons, Prod.mk.injEq] at h
    rcases h with ⟨h1, h2⟩ | h2
    · rw [h1, h2]
    · exact ih h2

/-! ### Claim C7 — expiry marks past-dated active watches -/

/-- Claim C7: after the expiry update (run at the start of every scan cycle
via `afterExpiry`, and by the standalone `expire_watches` job — both execute
`expireUpdate`), every watch that was `active` with `target_date` strictly
before today has status `expired`.  The zip pairs each original row with its
updated value. -/
theorem expiry_marks_past_active_watches (today : Int) (ws : List Watch)
    (w w2 : Watch) (hp : (w, w2) ∈ ws.zip (expireUpdate today ws))
    (hact : w.status = WStatus.active) (hpast : w.target_date < today) :
    w2.status = WStatus.expired := by
  have hb := pairMemZipMap
    (fun w => if w.status = WStatus.active ∧ w.target_date < today then
        { w with status := WStatus.expired } else w)
    ws w w2 (by simpa [expireUpdate] using hp)
  rw [hb]
  simp [hact, hpast]

/-- Witness for C7 at a concrete input: the stale watch of `dbTwo`. -/
theorem expiry_marks_past_active_watches_w :
    ({ watchPast with status := WStatus.expired }).status = WStatus.expired :=
  expiry_marks_past_active_watches 10 [watchPast] watchPast
    ({ watchPast with status := WStatus.expired }) (by decide) (by decide) (by decide)

/-! ### Claim C9 — cancellation ignores the current status -/

/-- Claim C9: `delete_watch` checks only existence and ownership; for any
watch owned by the requester — whatever its current status, including the
terminal `booked`/`expired` — the operation reports success and every row
with that id ends up `cancelled`. -/
theorem cancel_ignores_current_status (db : Db) (uid wid : Nat) (w : Watch)
    (hw : w ∈ db.watches) (hid : w.id = wid) (huser : w.user_id = uid) :
    (deleteWatch db uid wid).1 = CancelOutcome.success ∧
    ∀ w2 ∈ (deleteWatch db uid wid).2.watches, w2.id = wid →
      w2.status = WStatus.cancelled := by
  unfold deleteWatch
  cases hf : db.watches.find? (fun x => decide (x.id = wid ∧ x.user_id = uid)) with
  | none =>
    exfalso
    have hnone := List.find?_eq_none.mp hf w hw
    simp [hid, huser] at hnone
  | some x =>
    refine ⟨rfl, ?_⟩
    intro w2 hmem hw2
    simp only [List.mem_map] at hmem
    obtain ⟨y, _, hEq⟩ := hmem
    by_cases hcase : y.id = wid
    · rw [← hEq]
      simp [hcase]
    · rw [← hEq] at hw2
      simp [hcase] at hw2


/-- Witness for C9: cancelling a watch already in the terminal `booked`
state succeeds and sets it to `cancelled`. -/
theorem cancel_ignores_current_status_w :
    (deleteWatch dbBooked 1 1).1 = CancelOutcome.success ∧
    ({ watchBooked with status := WStatus.cancelled }).status = WStatus.cancelled :=
  ⟨(cancel_ignores_current_status dbBooked 1 1 watchBooked (by decide) rfl rfl).1,
   (cancel_ignores_current_status dbBooked 1 1 watchBooked (by decide) rfl rfl).2
     ({ watchBooked with status := WStatus.cancelled }) (by decide) rfl⟩

/-! ### Claim C10 — the dedup check fails open -/

/-- Claim C10: when the dedup lookup raises, `was_recently_notified` returns
`False`, and consequently `notify_slot_found` proceeds to the transport call
instead of suppressing (at least one send is made when the recipient address
is deliverable). -/
theorem dedup_check_fails_open (e : DbErr)
    (badRead : Db → Except DbErr (List NotifRec))
    (hbad : ∀ db, badRead db = Except.error e)
    (wid : Nat) (channel : String) (now minutes : Int)
    (emailOk smsOk : Bool) (c : Conn) (r : RowW) (slot : Slot) (wasBooked : Bool)
    (hmail : r.user_email.toList.isEmpty = false)
    (hnt : isTestEmail r.user_email = false) :
    wasRecentlyNotified (Except.error e) wid channel now minutes = false ∧
    1 ≤ (notifySlotFound badRead emailOk smsOk now c r slot wasBooked).2 := by
  constructor
  · rfl
  · simp only [notifySlotFound, hbad, hmail, hnt, wasRecentlyNotified]
    simp

/-! ### Claim C3 — inclusive time-window matching -/

/-- Slots kept by `matchSlots` are drawn from its input. -/
theorem matchSlots_subset (sMin eMin : Int) :
    ∀ (slots ms : List Slot), matchSlots sMin eMin slots = some ms → ms ⊆ slots := by
  intro slots
  induction slots with
  | nil =>
    intro ms h
    simp only [matchSlots, Option.some.injEq] at h
    simp [← h]
  | cons s0 rest ih =>
    intro ms h
    simp only [matchSlots] at h
    cases hp : timeStrToMinutes s0.time with
    | none => rw [hp] at h; simp at h
    | some m0 =>
      rw [hp] at h
      cases hrec : matchSlots sMin eMin rest with
      | none => rw [hrec] at h; simp at h
      | some tl =>
        rw [hrec] at h
        simp only [Option.map_some', Option.some.injEq] at h
        have hsub := ih tl hrec
        intro x hx
        rw [← h] at hx
        by_cases hr : sMin ≤ m0 ∧ m0 ≤ eMin
        · rw [if_pos hr] at hx
          rcases List.mem_cons.mp hx with h1 | h1
          · exact h1 ▸ List.mem_cons_self s0 rest
          · exact List.mem_cons_of_mem s0 (hsub h1)
        · rw [if_neg hr] at hx
          exact List.mem_cons_of_mem s0 (hsub hx)

/-- Membership in the filtered slot list is exactly the inclusive window
test on the slot's parsed minute value. -/
theorem mem_matchSlots (sMin eMin m : Int) (s : Slot) :
    ∀ (slots ms : List Slot), matchSlots sMin eMin slots = some ms →
      timeStrToMinutes s.time = some m → s ∈ slots →
      (s ∈ ms ↔ (sMin ≤ m ∧ m ≤ eMin)) := by
  intro slots
  induction slots with
  | nil => intro ms _ _ hin; exact absurd hin (List.not_mem_nil s)
  | cons s0 rest ih =>
    intro ms h hm hin
    simp only [matchSlots] at h
    cases hp : timeStrToMinutes s0.time with
    | none => rw [hp] at h; simp at h
    | some m0 =>
      rw [hp] at h
      cases hrec : matchSlots sMin eMin rest with
      | none => rw [hrec] at h; simp at h
      | some tl =>
        rw [hrec] at h
        simp only [Option.map_some', Option.some.injEq] at h
        by_cases hs0 : s = s0
        · have hm0 : m0 = m := by
            rw [← hs0, hm] at hp
            exact ((Option.some.injEq _ _).mp hp).symm
          subst hm0
          by_cases hr : sMin ≤ m0 ∧ m0 ≤ eMin
          · rw [← h, if_pos hr]
            simp [hs0, hr]
          · rw [← h, if_neg hr]
            constructor
            · intro hmem
              have hsub := matchSlots_subset sMin eMin rest tl hrec
              exact absurd ((ih tl hrec hm (hsub hmem)).mp hmem) hr
            · intro hr2; exact absurd hr2 hr
        · have hins : s ∈ rest := by
            rcases List.mem_cons.mp hin with h1 | h1
            · exact absurd h1 hs0
            · exact h1
          have ihe := ih tl hrec hm hins
          by_cases hr : sMin ≤ m0 ∧ m0 ≤ eMin
          · rw [← h, if_pos hr]
            rw [List.mem_cons]
            constructor
            · intro hmem
              rcases hmem with h1 | h1
              · exact absurd h1 hs0
              · exact ihe.mp h1
            · intro hr2; exact Or.inr (ihe.mpr hr2)
          · rw [← h, if_neg hr]
            exact ihe

/-- Claim C3: for a slot whose time parses to minute `m` and a watch whose
window parses to `[sMin, eMin]`, the match loop (`watchMatches`, as invoked
per watch by the scan cycle) keeps the pair iff `sMin ≤ m ∧ m ≤ eMin` —
inclusive at both ends. -/
theorem slot_match_iff_inclusive_window (r : RowW) (k : String)
    (slots : List Slot) (s : Slot) (sMin eMin m : Int) (out : List MatchRec)
    (hs : timeStrToMinutes r.w.time_start = some sMin)
    (he : timeStrToMinutes r.w.time_end = some eMin)
    (hm : timeStrToMinutes s.time = some m)
    (hin : s ∈ slots)
    (hrun : watchMatches r k slots = some out) :
    ((⟨r, s, k⟩ : MatchRec) ∈ out ↔ (sMin ≤ m ∧ m ≤ eMin)) := by
  simp only [watchMatches, hs, he, Option.bind_eq_bind, Option.some_bind] at hrun
  cases hms : matchSlots sMin eMin slots with
  | none => rw [hms] at hrun; simp at hrun
  | some ms =>
    rw [hms] at hrun
    simp only [Option.some_bind, Option.pure_def, Option.some.injEq] at hrun
    have hmem : ((⟨r, s, k⟩ : MatchRec) ∈ out ↔ s ∈ ms) := by
      rw [← hrun]
      simp only [List.mem_map]
      constructor
      · rintro ⟨x, hx, hEq⟩
        cases hEq
        exact hx
      · intro hx
        exact ⟨s, hx, rfl⟩
    rw [hmem]
    exact mem_matchSlots sMin eMin m s slots ms hms hm hin

/-- Witness for C3: the boundary slot at exactly the window start (6:00 PM =
minute 1080 of the window [1080, 1200]) is matched. -/
theorem slot_match_iff_inclusive_window_w :
    ((⟨rowWin, ⟨"6:00 PM", none, none⟩, "peachtree"⟩ : MatchRec) ∈ msWin ↔
      ((1080 : Int) ≤ 1080 ∧ (1080 : Int) ≤ 1200)) :=
  slot_match_iff_inclusive_window rowWin "peachtree" slotsWin
    ⟨"6:00 PM", none, none⟩ 1080 1200 1080 msWin
    (by decide) (by decide) (by decide) (by decide) (by decide)

example : watchMatches rowWin "peachtree" slotsWin = some msWin := by decide

/-! ### Claim C5 — one fetch per distinct (location, date, party) group -/

/-- The key list after one `setdefault`-style insertion: unchanged when the
key is present, extended by the key otherwise. -/
theorem keys_addG (acc : List (GKey × List RowW)) (k : GKey) (r : RowW) :
    (addG acc k r).map Prod.fst =
      if k ∈ acc.map Prod.fst then acc.map Prod.fst
      else acc.map Prod.fst ++ [k] := by
  induction acc with
  | nil => simp [addG]
  | cons p rest ih =>
    obtain ⟨k1, l⟩ := p
    by_cases h : k1 = k
    · subst h
      simp [addG]
    · simp only [addG, if_neg h, List.map_cons, ih, List.mem_cons]
      have hk : ¬ k = k1 := fun hEq => h hEq.symm
      by_cases h2 : k ∈ rest.map Prod.fst
      · simp [h2, hk]
      · simp [h2, hk]

/-- Key membership across the whole grouping fold. -/
theorem mem_keys_groupFold (rows : List RowW) :
    ∀ (acc : List (GKey × List RowW)) (k : GKey),
      (k ∈ (rows.foldl (fun a r => addG a (gkey r) r) acc).map Prod.fst) ↔
        (k ∈ acc.map Prod.fst ∨ k ∈ rows.map gkey) := by
  induction rows with
  | nil => intro acc k; simp
  | cons r rest ih =>
    intro acc k
    simp only [List.foldl_cons, List.map_cons, List.mem_cons]
    rw [ih, keys_addG]
    by_cases h : gkey r ∈ acc.map Prod.fst
    · rw [if_pos h]
      constructor
      · intro h1; tauto
      · rintro (h1 | h1 | h1)
        · tauto
        · rw [h1]; tauto
        · tauto
    · rw [if_neg h]
      simp only [List.mem_append, List.mem_singleton]
      tauto

/-- The grouping fold never duplicates a key. -/
theorem nodup_keys_groupFold (rows : List RowW) :
    ∀ acc : List (GKey × List RowW), (acc.map Prod.fst).Nodup →
      ((rows.foldl (fun a r => addG a (gkey r) r) acc).map Prod.fst).Nodup := by
  induction rows with
  | nil => intro acc h; simpa
  | cons r rest ih =>
    intro acc h
    simp only [List.foldl_cons]
    apply ih
    rw [keys_addG]
    by_cases hc : gkey r ∈ acc.map Prod.fst
    · rw [if_pos hc]; exact h
    · rw [if_neg hc, ← List.concat_eq_append]
      exact List.Nodup.concat hc h

/-- Claim C5: the keys for which a fetch is submitted are exactly the
distinct (location, date, party size) tuples of the scannable rows, each
occurring once — so the number of fetches equals the number of distinct
tuples, not the number of watches. -/
theorem one_fetch_per_distinct_group (rows : List RowW) :
    (fetchedKeys rows).Nodup ∧
    (∀ k, k ∈ fetchedKeys rows ↔ k ∈ rows.map gkey) ∧
    (fetchedKeys rows).length = (rows.map gkey).dedup.length := by
  have h1 : (fetchedKeys rows).Nodup :=
    nodup_keys_groupFold rows [] (by simp)
  have h2 : ∀ k, k ∈ fetchedKeys rows ↔ k ∈ rows.map gkey := by
    intro k
    have hmem := mem_keys_groupFold rows [] k
    simpa [fetchedKeys, buildGroups] using hmem
  refine ⟨h1, h2, ?_⟩
  have hperm : (fetchedKeys rows).Perm ((rows.map gkey).dedup) := by
    rw [List.perm_ext_iff_of_nodup h1 (List.nodup_dedup _)]
    intro a
    rw [h2 a, List.mem_dedup]
  exact hperm.length_eq

example :
    fetchedKeys [rowWin, rowWin, { rowWin with w := { watch0 with party_size := 4 } }] =
      [("peachtree", 10, 2), ("peachtree", 10, 4)] := by decide

/-! ### Claim C8 — anchor results are concatenated, duplicates retained -/

/-- Folding list-append over a list equals the initial segment followed by
the flattened images. -/
theorem foldl_append_eq_flatten {α β : Type} (g : α → List β) :
    ∀ (l : List α) (init : List β),
      l.foldl (fun acc a => acc ++ g a) init = init ++ (l.map g).flatten := by
  intro l
  induction l with
  | nil => intro init; simp
  | cons x xs ih => intro init; simp [ih]

/-- Amended C8: for a known location, `_fetch_inventory` returns the
concatenation, in anchor order, of each anchor query's available slots —
with no de-duplication by display time. -/
theorem fetch_concatenates_anchor_slots (locKey : String)
    (responses : Nat → Option (List RespType))
    (h : (LOCATIONS.find? (fun p => p.1 = locKey)).isSome = true) :
    fetchInventory locKey responses =
      (ANCHOR_HOURS.map (anchorContribution responses)).flatten := by
  unfold fetchInventory
  cases hf : LOCATIONS.find? (fun p => p.1 = locKey) with
  | none => rw [hf] at h; simp at h
  | some _ =>
    simpa using foldl_append_eq_flatten (anchorContribution responses) ANCHOR_HOURS []

/-- Witness for C8's amended statement at a concrete response set. -/
theorem fetch_concatenates_anchor_slots_w :
    fetchInventory "peachtree" respOne =
      (ANCHOR_HOURS.map (anchorContribution respOne)).flatten :=
  fetch_concatenates_anchor_slots "peachtree" respOne (by decide)

/-- Counterexample for C8 as stated: when two anchor queries both return a
slot with display time "6:00 PM", the merged list contains that display time
twice — not "at most one slot per display time". -/
theorem fetch_keeps_duplicate_display_times :
    (fetchInventory "peachtree" respDup).countP (fun s => s.time == "6:00 PM") = 2 := by
  decide

/-! ### Claim C6 — notification dedup yields one transport call -/

/-- Claim C6: for every (watch, channel) pair, two `notify_slot_found`
invocations within the dedup window make exactly one transport call on that
channel: the first attempt logs a `sent` record at `t1`, and the second, at
`t2` with `t2 - t1 < 3600` seconds, finds it inside the 60-minute window and
is suppressed before reaching a transport.  Covered for all watch shapes:
an email-only watch (one email call in total), a phone-only watch (one SMS
call in total, exercising the SMS dedup branch of `notify_slot_found`), and
a watch with both channels (the first attempt makes two calls — one per
channel — and the second attempt, with both pairs inside the window, makes
none). -/
theorem dedup_single_transport_call (r : RowW) (slot1 slot2 : Slot)
    (t1 t2 : Int) (c0 : Conn) (sA e1 e2 sB b1 b2 : Bool)
    (hwin : t2 - t1 < 3600) :
    ((r.user_email.toList.isEmpty = false) → (isTestEmail r.user_email = false) →
     (truthyS r.w.book_phone = false) → (truthyS r.user_phone = false) →
     (wasRecentlyNotified (healthyRead c0.current) r.w.id "email" t1 60 = false) →
     (notifySlotFound healthyRead true sA t1 c0 r slot1 b1).2 +
       (notifySlotFound healthyRead e2 sB t2
         (notifySlotFound healthyRead true sA t1 c0 r slot1 b1).1 r slot2 b2).2 = 1) ∧
    ((r.user_email.toList.isEmpty = true ∨ isTestEmail r.user_email = true) →
     (truthyS (if truthyS r.w.book_phone then r.w.book_phone else r.user_phone) = true) →
     (wasRecentlyNotified (healthyRead c0.current) r.w.id "sms" t1 60 = false) →
     (notifySlotFound healthyRead e1 true t1 c0 r slot1 b1).2 +
       (notifySlotFound healthyRead e2 sB t2
         (notifySlotFound healthyRead e1 true t1 c0 r slot1 b1).1 r slot2 b2).2 = 1) ∧
    ((r.user_email.toList.isEmpty = false) → (isTestEmail r.user_email = false) →
     (truthyS (if truthyS r.w.book_phone then r.w.book_phone else r.user_phone) = true) →
     (wasRecentlyNotified (healthyRead c0.current) r.w.id "email" t1 60 = false) →
     (wasRecentlyNotified (healthyRead c0.current) r.w.id "sms" t1 60 = false) →
     (notifySlotFound healthyRead true true t1 c0 r slot1 b1).2 = 2 ∧
     (notifySlotFound healthyRead e2 sB t2
       (notifySlotFound healthyRead true true t1 c0 r slot1 b1).1 r slot2 b2).2 = 0) := by
  refine ⟨?_, ?_, ?_⟩
  · intro hmail hnt hnp1 hnp2 hfirst
    have hrec : wasRecentlyNotified
        (healthyRead (logNotification c0 (some r.w.id) (some r.w.user_id)
          "email" r.user_email "sent" t1).current) r.w.id "email" t2 60 = true := by
      unfold wasRecentlyNotified healthyRead
      rw [List.any_eq_true]
      refine ⟨⟨some r.w.id, some r.w.user_id, "email", r.user_email, "sent", t1⟩, ?_, ?_⟩
      · simp [logNotification, Conn.commit]
      · simp
        omega
    have hne : ¬ (r.user_email.data = []) := by
      intro hEq
      rw [String.toList] at hmail
      rw [hEq] at hmail
      simp at hmail
    simp [notifySlotFound, hmail, hnt, hnp1, hnp2, hfirst, hrec, hne]
  · intro hskip hph hfirstS
    have hrecS : wasRecentlyNotified
        (healthyRead (logNotification c0 (some r.w.id) (some r.w.user_id) "sms"
          ((if truthyS r.w.book_phone then r.w.book_phone else r.user_phone).getD "")
          "sent" t1).current) r.w.id "sms" t2 60 = true := by
      unfold wasRecentlyNotified healthyRead
      rw [List.any_eq_true]
      refine ⟨⟨some r.w.id, some r.w.user_id, "sms",
        ((if truthyS r.w.book_phone then r.w.book_phone else r.user_phone).getD ""),
        "sent", t1⟩, ?_, ?_⟩
      · simp [logNotification, Conn.commit]
      · simp
        omega
    rcases hskip with h | h
    · have hd : r.user_email.data = [] := by
        rw [String.toList] at h
        exact List.isEmpty_iff.mp h
      simp [notifySlotFound, h, hd, hph, hfirstS, hrecS]
    · simp [notifySlotFound, h, hph, hfirstS, hrecS]
  · intro hmail hnt hph hfE hfS
    have hne : ¬ (r.user_email.data = []) := by
      intro hEq
      rw [String.toList] at hmail
      rw [hEq] at hmail
      simp at hmail
    have hfS1 : wasRecentlyNotified
        (healthyRead (logNotification c0 (some r.w.id) (some r.w.user_id)
          "email" r.user_email "sent" t1).current) r.w.id "sms" t1 60 = false := by
      unfold wasRecentlyNotified healthyRead at hfS ⊢
      simpa [logNotification, Conn.commit, List.any_append] using hfS
    have hrecE2 : wasRecentlyNotified (healthyRead (logNotification
        (logNotification c0 (some r.w.id) (some r.w.user_id) "email" r.user_email
          "sent" t1)
        (some r.w.id) (some r.w.user_id) "sms"
        ((if truthyS r.w.book_phone then r.w.book_phone else r.user_phone).getD "")
        "sent" t1).current) r.w.id "email" t2 60 = true := by
      unfold wasRecentlyNotified healthyRead
      rw [List.any_eq_true]
      refine ⟨⟨some r.w.id, some r.w.user_id, "email", r.user_email, "sent", t1⟩, ?_, ?_⟩
      · simp [logNotification, Conn.commit]
      · simp
        omega
    have hrecS2 : wasRecentlyNotified (healthyRead (logNotification
        (logNotification c0 (some r.w.id) (some r.w.user_id) "email" r.user_email
          "sent" t1)
        (some r.w.id) (some r.w.user_id) "sms"
        ((if truthyS r.w.book_phone then r.w.book_phone else r.user_phone).getD "")
        "sent" t1).current) r.w.id "sms" t2 60 = true := by
      unfold wasRecentlyNotified healthyRead
      rw [List.any_eq_true]
      refine ⟨⟨some r.w.id, some r.w.user_id, "sms",
        ((if truthyS r.w.book_phone then r.w.book_phone else r.user_phone).getD ""),
        "sent", t1⟩, ?_, ?_⟩
      · simp [logNotification, Conn.commit]
      · simp
        omega
    simp [notifySlotFound, hmail, hnt, hne, hph, hfE, hfS1, hrecE2, hrecS2]

/-- Witness for C6 at concrete inputs, one per watch shape: the email-only
row makes one email call across both attempts, the phone-only row makes one
SMS call across both attempts, and the both-channels row makes two calls on
the first attempt and none on the second. -/
theorem dedup_single_transport_call_w :
    ((notifySlotFound healthyRead true false 1000 connEmptyLog rowMail slotEve false).2 +
      (notifySlotFound healthyRead false false 2000
        (notifySlotFound healthyRead true false 1000 connEmptyLog rowMail slotEve false).1
        rowMail slotEve false).2 = 1) ∧
    ((notifySlotFound healthyRead false true 1000 connEmptyLog rowPhone slotEve false).2 +
      (notifySlotFound healthyRead false false 2000
        (notifySlotFound healthyRead false true 1000 connEmptyLog rowPhone slotEve false).1
        rowPhone slotEve false).2 = 1) ∧
    ((notifySlotFound healthyRead true true 1000 connEmptyLog rowBoth slotEve false).2 = 2 ∧
      (notifySlotFound healthyRead false false 2000
        (notifySlotFound healthyRead true true 1000 connEmptyLog rowBoth slotEve false).1
        rowBoth slotEve false).2 = 0) :=
  ⟨(dedup_single_transport_call rowMail slotEve slotEve 1000 2000 connEmptyLog
      false false false false false false (by decide)).1
      (by decide) (by decide) (by decide) (by decide) (by decide),
   (dedup_single_transport_call rowPhone slotEve slotEve 1000 2000 connEmptyLog
      false false false false false false (by decide)).2.1
      (by decide) (by decide) (by decide),
   (dedup_single_transport_call rowBoth slotEve slotEve 1000 2000 connEmptyLog
      false false false false false false (by decide)).2.2
      (by decide) (by decide) (by decide) (by decide) (by decide)⟩

/-! ### Claim C1 — the auto-book gate -/

/-- The gate holds exactly when auto-book is set and first name and phone are
truthy; the last name plays no role. -/
theorem bookGate_eq_true_iff (w : Watch) :
    bookGate w = true ↔
      (w.auto_book = true ∧ truthyS w.book_first_name = true ∧
       truthyS w.book_phone = true) := by
  simp [bookGate, Bool.and_eq_true, and_assoc]

/-- `notify_slot_found` never touches the `watches` table in the transaction
view. -/
theorem notify_preserves_watches (dbRead : Db → Except DbErr (List NotifRec))
    (e s : Bool) (now : Int) (c : Conn) (r : RowW) (slot : Slot) (b : Bool) :
    (notifySlotFound dbRead e s now c r slot b).1.current.watches =
      c.current.watches := by
  simp only [notifySlotFound]
  repeat' split
  all_goals simp [logNotification, Conn.commit]

/-- The `notified_at` update leaves every watch's status (and id) unchanged. -/
theorem setNotifiedAt_no_booked (db : Db) (j : Nat) (now : Int) (i : Nat)
    (h : ∀ w ∈ db.watches, w.id = i → w.status ≠ WStatus.booked) :
    ∀ w ∈ (setNotifiedAt db j now).watches, w.id = i →
      w.status ≠ WStatus.booked := by
  intro w2 hmem hid
  simp only [setNotifiedAt, List.mem_map] at hmem
  obtain ⟨y, hy, hEq⟩ := hmem
  rw [← hEq] at hid ⊢
  by_cases hc : y.id = j
  · rw [if_pos hc] at hid ⊢
    exact h y hy hid
  · rw [if_neg hc] at hid ⊢
    exact h y hy hid

/-- The `booked` update for a different watch id preserves "no booked row with
id `i`". -/
theorem setBooked_no_booked_other (db : Db) (j : Nat) (now : Int) (i : Nat)
    (hne : j ≠ i)
    (h : ∀ w ∈ db.watches, w.id = i → w.status ≠ WStatus.booked) :
    ∀ w ∈ (setBooked db j now).watches, w.id = i →
      w.status ≠ WStatus.booked := by
  intro w2 hmem hid
  simp only [setBooked, List.mem_map] at hmem
  obtain ⟨y, hy, hEq⟩ := hmem
  rw [← hEq] at hid ⊢
  by_cases hc : y.id = j
  · have hid2 : y.id = i := by rw [if_pos hc] at hid; exact hid
    exact absurd (hc.symm.trans hid2) hne
  · rw [if_neg hc] at hid ⊢
    exact h y hy hid

/-- Amended C1: booking is gated on `auto_book`, a truthy first name and a
truthy phone only.  For every watch id whose matches all fail that gate,
`_auto_book` is never invoked for it and no row with that id is ever set to
`booked` by the match-processing loop (it degrades to notify-only);
`book_last_name` is not part of the gate — see the counterexample. -/
theorem booking_gate_requires_first_and_phone (env : ScanEnv) (now : Int) (i : Nat) :
    ∀ (ms : List MatchRec) (c : Conn),
      (∀ m ∈ ms, m.row.w.id = i →
        ¬ (m.row.w.auto_book = true ∧ truthyS m.row.w.book_first_name = true ∧
           truthyS m.row.w.book_phone = true)) →
      (∀ w ∈ c.current.watches, w.id = i → w.status ≠ WStatus.booked) →
      (i ∉ (processMatches env now ms c).attempts ∧
       ∀ w ∈ (processMatches env now ms c).conn.current.watches, w.id = i →
         w.status ≠ WStatus.booked) := by
  intro ms
  induction ms with
  | nil =>
    intro c _ hs
    exact ⟨by simp [processMatches], by simpa [processMatches] using hs⟩
  | cons m rest ih =>
    intro c hg hs
    simp only [processMatches]
    by_cases hem : m.row.w.id = i
    · have hgF : bookGate m.row.w = false := by
        have hnot := hg m (List.mem_cons_self m rest) hem
        cases hb : bookGate m.row.w with
        | false => rfl
        | true => exact absurd ((bookGate_eq_true_iff m.row.w).mp hb) hnot
      simp only [hgF, Bool.false_and, Bool.false_eq_true, if_false, Bool.not_false,
        if_true, List.nil_append]
      have hs3 : ∀ w ∈ (setNotifiedAt (notifySlotFound healthyRead
          (env.emailOk m.row.w.id) (env.smsOk m.row.w.id) now c m.row m.slot
          false).1.current m.row.w.id now).watches,
          w.id = i → w.status ≠ WStatus.booked := by
        apply setNotifiedAt_no_booked
        rw [notify_preserves_watches]
        exact hs
      have ihr := ih
        { (notifySlotFound healthyRead (env.emailOk m.row.w.id)
            (env.smsOk m.row.w.id) now c m.row m.slot false).1 with
          current := setNotifiedAt (notifySlotFound healthyRead
            (env.emailOk m.row.w.id) (env.smsOk m.row.w.id) now c m.row m.slot
            false).1.current m.row.w.id now }
        (fun x hx => hg x (List.mem_cons_of_mem m hx)) hs3
      exact ⟨ihr.1, ihr.2⟩
    · by_cases hbk : (bookGate m.row.w && env.bookOk m.row.w.id m.slot.time) = true
      · simp only [hbk, if_true, Bool.not_true, Bool.false_eq_true, if_false]
        have hs2 : ∀ w ∈ (notifySlotFound healthyRead (env.emailOk m.row.w.id)
            (env.smsOk m.row.w.id) now
            { c with current := setBooked c.current m.row.w.id now }
            m.row m.slot true).1.current.watches,
            w.id = i → w.status ≠ WStatus.booked := by
          rw [notify_preserves_watches]
          exact setBooked_no_booked_other c.current m.row.w.id now i hem hs
        have ihr := ih _ (fun x hx => hg x (List.mem_cons_of_mem m hx)) hs2
        refine ⟨?_, ihr.2⟩
        intro hmem
        rcases List.mem_append.mp hmem with h1 | h1
        · revert h1
          split
          · intro h1
            rcases List.mem_cons.mp h1 with h2 | h2
            · exact hem h2.symm
            · exact absurd h2 (List.not_mem_nil i)
          · intro h1
            exact absurd h1 (List.not_mem_nil i)
        · exact ihr.1 h1
      · rw [Bool.not_eq_true] at hbk
        simp only [hbk, Bool.false_eq_true, if_false, Bool.not_false, if_true]
        have hs3 : ∀ w ∈ (setNotifiedAt (notifySlotFound healthyRead
            (env.emailOk m.row.w.id) (env.smsOk m.row.w.id) now c m.row m.slot
            false).1.current m.row.w.id now).watches,
            w.id = i → w.status ≠ WStatus.booked := by
          apply setNotifiedAt_no_booked
          rw [notify_preserves_watches]
          exact hs
        have ihr := ih
          { (notifySlotFound healthyRead (env.emailOk m.row.w.id)
              (env.smsOk m.row.w.id) now c m.row m.slot false).1 with
            current := setNotifiedAt (notifySlotFound healthyRead
              (env.emailOk m.row.w.id) (env.smsOk m.row.w.id) now c m.row m.slot
              false).1.current m.row.w.id now }
          (fun x hx => hg x (List.mem_cons_of_mem m hx)) hs3
        refine ⟨?_, ihr.2⟩
        intro hmem
        rcases List.mem_append.mp hmem with h1 | h1
        · revert h1
          split
          · intro h1
            rcases List.mem_cons.mp h1 with h2 | h2
            · exact hem h2.symm
            · exact absurd h2 (List.not_mem_nil i)
          · intro h1
            exact absurd h1 (List.not_mem_nil i)
        · exact ihr.1 h1

/-- Witness for the amended C1: watch 1 of `msWin` has `auto_book = false`,
so `_auto_book` is never invoked for id 1. -/
theorem booking_gate_requires_first_and_phone_w :
    1 ∉ (processMatches envQuiet 0 msWin connEmptyLog).attempts :=
  (booking_gate_requires_first_and_phone envQuiet 0 1 msWin connEmptyLog
    (by decide) (by decide)).1

/-- Counterexample for C1 as stated: `watchNoLast` has `auto_book = true`,
a first name and a phone, but no last name (an incomplete booking-contact set
per the claim).  When the upstream booking succeeds, a full cycle both
attempts the booking and commits the watch as `booked`. -/
theorem booking_without_last_name_books :
    watchNoLast.book_last_name = none ∧
    watchNoLast.auto_book = true ∧
    ((scanWatches envBookAll fetchEve "all" now10 none connNoLast).2.committed.watches.map
      Watch.status) = [WStatus.booked] ∧
    (scanWatches envBookAll fetchEve "all" now10 none connNoLast).1.booked =
      [(1, "7:15 PM")] := by
  decide

/-! ### Claim C2 — what a mid-cycle failure rolls back -/

/-- Amended C2: a failure rolls the connection back to the most recent commit,
not to the start of the cycle.  A database error raised during the expiry
update (before the cycle's first commit) leaves the committed state as it
was; an error raised at the final `last_scanned` update discards only the
writes still pending after match processing — the expiry commit and every
commit issued by `log_notification` during the cycle survive. -/
theorem cycle_failure_rolls_back_to_last_commit (env : ScanEnv)
    (fetch : GKey → List Slot) (urgency : String) (now : Int) (c0 : Conn) :
    (scanWatches env fetch urgency now (some FailPoint.expiryExec) c0).2 =
      c0.rollback ∧
    ∀ c1, afterProcessing env fetch urgency now c0 = some c1 →
      (scanWatches env fetch urgency now (some FailPoint.lastScanned) c0).2 =
        c1.rollback := by
  constructor
  · simp [scanWatches]
  · intro c1 h
    simp only [afterProcessing] at h
    simp only [scanWatches]
    rw [if_neg (by simp : ¬ ((some FailPoint.lastScanned : Option FailPoint) =
      some FailPoint.expiryExec))]
    by_cases h1 : loadActive (afterExpiry (now.fdiv 86400) c0).current = []
    · rw [if_pos h1] at h
      exact absurd h (by simp)
    · rw [if_neg h1] at h ⊢
      by_cases h2 : (tierFilter urgency now
          (loadActive (afterExpiry (now.fdiv 86400) c0).current)).1 = []
      · rw [if_pos h2] at h
        exact absurd h (by simp)
      · rw [if_neg h2] at h ⊢
        cases h3 : collectMatches fetch (buildGroups (tierFilter urgency now
            (loadActive (afterExpiry (now.fdiv 86400) c0).current)).1) with
        | none =>
          rw [h3] at h
          exact absurd h (by simp)
        | some ms =>
          rw [h3] at h
          simp only [Option.some.injEq] at h
          rw [← h]
          split
          · next heq => exact absurd heq (by simp)
          · next ms2 heq =>
            have hms : ms2 = ms := by
              injection heq with hh
              exact hh.symm
            subst hms
            split
            · rfl
            · next hf => exact absurd trivial hf

/-- Witness for the amended C2 at a concrete input: the expiry-time failure
rolls back to the pre-cycle state, and the late failure rolls back only to
the state committed by the expiry step. -/
theorem cycle_failure_rolls_back_to_last_commit_w :
    (scanWatches envQuiet fetchNone "all" now10 (some FailPoint.expiryExec)
      connTwo).2 = connTwo.rollback ∧
    (scanWatches envQuiet fetchNone "all" now10 (some FailPoint.lastScanned)
      connTwo).2 = (afterExpiry 10 connTwo).rollback :=
  ⟨(cycle_failure_rolls_back_to_last_commit envQuiet fetchNone "all" now10 connTwo).1,
   (cycle_failure_rolls_back_to_last_commit envQuiet fetchNone "all" now10 connTwo).2
     (afterExpiry 10 connTwo) (by decide)⟩

/-- Counterexample for C2 as stated: in `connTwo` both watches start `active`;
a cycle that fails at the final `last_scanned` update still leaves the stale
watch's `active → expired` transition committed (the expiry step committed it
in its own transaction at the start of the failed cycle), so partial state
from the failed cycle persists. -/
theorem expiry_commit_survives_failed_cycle :
    connTwo.committed.watches.map Watch.status =
      [WStatus.active, WStatus.active] ∧
    (scanWatches envQuiet fetchNone "all" now10 (some FailPoint.lastScanned)
      connTwo).1.error = true ∧
    (scanWatches envQuiet fetchNone "all" now10 (some FailPoint.lastScanned)
      connTwo).2.committed.watches.map Watch.status =
      [WStatus.expired, WStatus.active] := by
  decide

/-! ### Claim C4 — malformed time strings abort the cycle -/

/-- Amended C4: a malformed time string is not treated as a non-match — it
aborts the matching loop (`matchSlots` propagates the parse exception), and
a cycle whose matching step raises returns the error result with the
connection rolled back to the expiry commit. -/
theorem malformed_time_aborts_cycle (sMin eMin : Int) (pre post : List Slot)
    (s : Slot) (hbad : timeStrToMinutes s.time = none)
    (env : ScanEnv) (fetch : GKey → List Slot) (urgency : String) (now : Int)
    (c0 : Conn)
    (habort : collectMatches fetch (buildGroups (tierFilter urgency now
      (loadActive (afterExpiry (now.fdiv 86400) c0).current)).1) = none) :
    matchSlots sMin eMin (pre ++ s :: post) = none ∧
    (scanWatches env fetch urgency now none c0).1 = scanErrorResult ∧
    (scanWatches env fetch urgency now none c0).2 =
      (afterExpiry (now.fdiv 86400) c0).rollback := by
  refine ⟨?_, ?_, ?_⟩
  · induction pre with
    | nil => simp [matchSlots, hbad]
    | cons x xs ih =>
      simp only [List.cons_append, matchSlots]
      cases hx : timeStrToMinutes x.time with
      | none => rfl
      | some mx => simp [ih]
  all_goals
    simp only [scanWatches]
    rw [if_neg (by simp : ¬ ((none : Option FailPoint) = some FailPoint.expiryExec))]
    by_cases h1 : loadActive (afterExpiry (now.fdiv 86400) c0).current = []
    · rw [h1] at habort
      simp [tierFilter, buildGroups, collectMatches] at habort
    · rw [if_neg h1]
      by_cases h2 : (tierFilter urgency now
          (loadActive (afterExpiry (now.fdiv 86400) c0).current)).1 = []
      · rw [h2] at habort
        simp [buildGroups, collectMatches] at habort
      · rw [if_neg h2]
        rw [habort]

/-- Witness for the amended C4 on a concrete cycle: the bad slot time "soon"
poisons the matching step; the cycle aborts with the error result and rolls
back to the expiry commit. -/
theorem malformed_time_aborts_cycle_w :
    matchSlots 1080 1200 ([] ++ (⟨"soon", none, none⟩ : Slot) :: [slotEve]) = none ∧
    (scanWatches envQuiet fetchBadTime "all" now10 none connToday).1 =
      scanErrorResult ∧
    (scanWatches envQuiet fetchBadTime "all" now10 none connToday).2 =
      (afterExpiry (now10.fdiv 86400) connToday).rollback :=
  malformed_time_aborts_cycle 1080 1200 [] [slotEve] ⟨"soon", none, none⟩
    (by decide) envQuiet fetchBadTime "all" now10 connToday (by decide)

/-- Counterexample for C4 as stated: with `fetchBadTime` one slot's time text
is malformed; the whole cycle aborts with the error result (nothing is
notified), whereas the same cycle without the bad slot (`fetchEve`) matches
and notifies the good 7:15 PM slot.  The bad time string is not treated as a
mere non-match. -/
theorem malformed_time_is_error_not_nonmatch :
    timeStrToMinutes "soon" = none ∧
    (scanWatches envQuiet fetchBadTime "all" now10 none connToday).1 =
      scanErrorResult ∧
    (scanWatches envQuiet fetchEve "all" now10 none connToday).1.notified =
      [(2, "7:15 PM")] := by
  decide

/-- Witness for C10 at a concrete input: with a raising dedup lookup the check
returns false and the email send is still made. -/
theorem dedup_check_fails_open_w :
    wasRecentlyNotified (Except.error "connection lost") 1 "email" 0 60 = false ∧
    1 ≤ (notifySlotFound brokenRead true true 0 connEmptyLog rowMail slotEve false).2 :=
  dedup_check_fails_open "connection lost" brokenRead (fun _ => rfl) 1 "email" 0 60
    true true connEmptyLog rowMail slotEve false (by decide) (by decide)
